import Mathlib

/-!
Verification of `icu4c/source/common/umutex.c` (ICU mutex / atomic layer).

The C file is a collection of operations over file-scope globals:
`gGlobalMutex`, `gIncDecMutex`, `gRecursionCount`, the four registered
mutex callbacks plus their context, the two registered atomic callbacks
plus their (never-assigned) context.  We embed those globals as a `State`
record, platform `#ifdef` configuration as a `Config` record, and external
nondeterminism (the allocator `uprv_malloc`, the behaviour of registered
callbacks, and `cmemory_inUse()`, all of which live outside this file) as
an `Env` record.  A `UMTX` slot value is `Option MVal`: `none` is the C
`NULL` ("uninitialized"), `MVal.obj i` is an object returned by
`uprv_malloc`, and `MVal.self` is the self-pointer marker stored by the
`ICU_USE_THREADS == 0` branch of `umtx_raw_init`.

The C API distinguishes the global mutex from user handles by pointer
identity (`mutex == NULL` / `mutex == &gGlobalMutex`); we embed that by
giving each operation a `_global` variant (operating on the state's
`globalMutex` field) and a `_user` variant (taking and returning the
user slot's value explicitly).  `U_ASSERT` is fatal when assertions are
compiled in (`Config.debug`); operations that can assert return
`Except Unit` where `Except.error ()` is the aborted execution.
-/

namespace Umutex

/-- Platform selection of the `#ifdef` cascade at the top of umutex.c:
WIN32, POSIX (the default), or neither (macintosh / OS2). -/
inductive Plat where
  | win32 : Plat
  | posix : Plat
  | other : Plat
deriving DecidableEq, Repr

/-- Compile-time configuration: platform, `ICU_USE_THREADS == 1`, and
whether `_DEBUG` / `U_ASSERT` assertions are compiled in. -/
structure Config where
  platform : Plat
  useThreads : Bool
  debug : Bool
deriving DecidableEq, Repr

/-- A non-null value held in a `UMTX` slot: either an object allocated by
`uprv_malloc` (identified by an allocation id), or the self-pointer marker
written by the no-threads branch of `umtx_raw_init`. -/
inductive MVal where
  | obj : Nat → MVal
  | self : MVal
deriving DecidableEq, Repr

/-- Value of a `UMTX` slot; `none` is C `NULL` (uninitialized handle). -/
abbrev UMTXv := Option MVal

def U_ZERO_ERROR : Int := 0

def U_ILLEGAL_ARGUMENT_ERROR : Int := 1

def U_INVALID_STATE_ERROR : Int := 27

/-- `U_FAILURE(x)` is `x > U_ZERO_ERROR`. -/
def U_FAILURE (x : Int) : Bool := decide (0 < x)

/-- External world: allocator success per allocation attempt (indexed by
the state's `tick`), the result of `cmemory_inUse()`, and the behaviour of
registered callbacks.  `cbInit t v` is what the registered mutex-init
callback leaves in `*status` and in the `UMTX` slot (whose old value is
`v`) on its `t`-th invocation.  `cbInc v` / `cbDec v` are, for a memory
cell currently holding `v`, the (new cell value, returned value) pair
produced by a registered atomic callback. -/
structure Env where
  allocOk : Nat → Bool
  memoryInUse : Bool
  cbInit : Nat → UMTXv → Int × UMTXv
  cbInc : Int → Int × Int
  cbDec : Int → Int × Int

/-- The file-scope globals of umutex.c, plus bookkeeping: `allocated` is
the list of `uprv_malloc`-allocated, not-yet-freed lock objects (to state
leak-freedom), `nextObj` the next fresh allocation id, and `tick` the
number of raw-construction attempts made so far (indexes `Env`). -/
structure State where
  globalMutex : UMTXv
  incDecMutex : UMTXv
  recursionCount : Int
  mutexInitFn : Option Nat
  mutexDestroyFn : Option Nat
  mutexLockFn : Option Nat
  mutexUnlockFn : Option Nat
  mutexContext : Option Nat
  incFn : Option Nat
  decFn : Option Nat
  incDecContext : Option Nat
  allocated : List Nat
  nextObj : Nat
  tick : Nat
deriving DecidableEq, Repr

/-- All statics start zero/NULL. -/
def initState : State :=
  { globalMutex := none, incDecMutex := none, recursionCount := 0,
    mutexInitFn := none, mutexDestroyFn := none, mutexLockFn := none,
    mutexUnlockFn := none, mutexContext := none,
    incFn := none, decFn := none, incDecContext := none,
    allocated := [], nextObj := 0, tick := 0 }

/-- `umtx_raw_init` (umutex.c:165-202): platform-specific construction of
a lock object into a slot whose current value is `v`; returns the updated
state and the slot's new value.  With a registered init callback the slot
holds whatever the callback left there (on `U_FAILURE` the code returns
early, otherwise it also returns, so the outcome is the same).  Built in:
under `ICU_USE_THREADS == 1` on WIN32/POSIX, `uprv_malloc` a lock object
(on allocation failure return with the slot untouched); on other
platforms no branch of the cascade applies and the slot is untouched;
with threads compiled out, store the self-pointer marker. -/
def umtx_raw_init (cfg : Config) (env : Env) (s : State) (v : UMTXv) :
    State × UMTXv :=
  match s.mutexInitFn with
  | some _ =>
      let r := env.cbInit s.tick v
      ({ s with tick := s.tick + 1 }, r.2)
  | none =>
      if cfg.useThreads then
        match cfg.platform with
        | .win32 | .posix =>
            if env.allocOk s.tick then
              ({ s with nextObj := s.nextObj + 1,
                        allocated := s.nextObj :: s.allocated,
                        tick := s.tick + 1 }, some (.obj s.nextObj))
            else
              ({ s with tick := s.tick + 1 }, v)
        | .other => (s, v)
      else
        (s, some .self)

/-- `umtx_init` on the global mutex (umutex.c:206-226): if already live,
return; otherwise raw-construct it, reset `gRecursionCount`, and on POSIX
also raw-construct `gIncDecMutex`. -/
def umtx_init_global (cfg : Config) (env : Env) (s : State) : State :=
  if s.globalMutex.isSome then s
  else
    let r := umtx_raw_init cfg env s s.globalMutex
    let s1 := { r.1 with globalMutex := r.2, recursionCount := 0 }
    if cfg.platform = .posix then
      let r2 := umtx_raw_init cfg env s1 s1.incDecMutex
      { r2.1 with incDecMutex := r2.2 }
    else s1

/-- The tail of `umtx_lock` after the lazy-init check: the lock callback
or platform lock (no effect on the modelled state) and, on WIN32 with
`_DEBUG`, the recursion-count instrumentation for the global mutex
(umutex.c:100-118), whose `U_ASSERT(gRecursionCount == 1)` is fatal. -/
def umtx_lock_finish (cfg : Config) (s : State) : Except Unit State :=
  if cfg.platform = .win32 ∧ cfg.debug then
    let s2 := { s with recursionCount := s.recursionCount + 1 }
    if s2.recursionCount = 1 then Except.ok s2 else Except.error ()
  else Except.ok s

/-- `umtx_lock(NULL)` / `umtx_lock(&gGlobalMutex)` (umutex.c:84-119):
on an uninitialized global mutex, `U_ASSERT(FALSE)` (fatal with
assertions on), else the emergency lazy `umtx_init`; then lock. -/
def umtx_lock_global (cfg : Config) (env : Env) (s : State) :
    Except Unit State :=
  if s.globalMutex = none then
    if cfg.debug then Except.error ()
    else umtx_lock_finish cfg (umtx_init_global cfg env s)
  else umtx_lock_finish cfg s

/-- `umtx_unlock(NULL)` / `umtx_unlock(&gGlobalMutex)` (umutex.c:126-158):
on an uninitialized global mutex, `U_ASSERT(FALSE)` and return — no
emergency initialization here; then the WIN32 `_DEBUG` recursion check
(`U_ASSERT(gRecursionCount == 0)` after decrement, fatal), then unlock. -/
def umtx_unlock_global (cfg : Config) (s : State) : Except Unit State :=
  if s.globalMutex = none then
    if cfg.debug then Except.error () else Except.ok s
  else if cfg.platform = .win32 ∧ cfg.debug then
    let s1 := { s with recursionCount := s.recursionCount - 1 }
    if s1.recursionCount = 0 then Except.ok s1 else Except.error ()
  else Except.ok s

/-- The destruction action of `umtx_destroy` on a live slot value
(umutex.c:274-287): delegate to a registered destroy callback, or on
WIN32/POSIX with threads delete the native object and `uprv_free` it
(remove it from `allocated`); the `ICU_USE_THREADS == 1` block is empty
on other platforms, and absent entirely with threads compiled out. -/
def destroyVal (cfg : Config) (s : State) (v : UMTXv) : State :=
  match s.mutexDestroyFn with
  | some _ => s
  | none =>
      if cfg.useThreads then
        match cfg.platform, v with
        | .win32, some (.obj i) => { s with allocated := s.allocated.erase i }
        | .posix, some (.obj i) => { s with allocated := s.allocated.erase i }
        | _, _ => s
      else s

/-- `umtx_destroy` on a user handle (umutex.c:264-295, `mutex` neither
`NULL` nor `&gGlobalMutex`): no-op when already uninitialized, else
release the object and reset the slot to `NULL`; no cascade. -/
def umtx_destroy_user (cfg : Config) (s : State) (v : UMTXv) :
    State × UMTXv :=
  if v = none then (s, none)
  else (destroyVal cfg s v, none)

/-- The recursive `umtx_destroy(&gIncDecMutex)` call made when destroying
the global mutex on POSIX (umutex.c:290-294). -/
def umtx_destroy_incdec (cfg : Config) (s : State) : State :=
  if s.incDecMutex = none then s
  else { destroyVal cfg s s.incDecMutex with incDecMutex := none }

/-- `umtx_destroy(NULL)` / `umtx_destroy(&gGlobalMutex)`: no-op when the
global handle is already uninitialized (this early return also skips the
cascade), else release it, reset it to `NULL`, and on POSIX also destroy
`gIncDecMutex`. -/
def umtx_destroy_global (cfg : Config) (s : State) : State :=
  if s.globalMutex = none then s
  else
    let s1 := { destroyVal cfg s s.globalMutex with globalMutex := none }
    if cfg.platform = .posix then umtx_destroy_incdec cfg s1 else s1

/-- `umtx_init` on a non-global handle (umutex.c:227-253): the
double-checked, global-mutex-guarded construction.  `v1` is the handle's
value observed during the first lock/unlock of the global mutex, `v2` its
value at the second, lock-guarded check — in a sequential run `v2 = v1`,
while a concurrent thread installing between the two checks is embedded
by `v1 = none`, `v2 ≠ none`.  If the first check sees a live handle,
return it.  Otherwise raw-construct a temporary into a NULL local
(`tMutex`); under the second lock, install it only if the handle is still
NULL (claiming it by nulling `tMutex`); finally, destroy the temporary if
it was not claimed. -/
def umtx_init_user_i (cfg : Config) (env : Env) (s : State)
    (v1 v2 : UMTXv) : Except Unit (State × UMTXv) :=
  match umtx_lock_global cfg env s with
  | Except.error e => Except.error e
  | Except.ok s1 =>
      match umtx_unlock_global cfg s1 with
      | Except.error e => Except.error e
      | Except.ok s2 =>
          if v1.isSome then Except.ok (s2, v1)
          else
            let r := umtx_raw_init cfg env s2 none
            match umtx_lock_global cfg env r.1 with
            | Except.error e => Except.error e
            | Except.ok s4 =>
                let p := if v2 = none then (r.2, (none : UMTXv))
                         else (v2, r.2)
                match umtx_unlock_global cfg s4 with
                | Except.error e => Except.error e
                | Except.ok s6 =>
                    if p.2.isSome then
                      Except.ok ((umtx_destroy_user cfg s6 p.2).1, p.1)
                    else Except.ok (s6, p.1)

/-- `umtx_init` on a non-global handle as executed with no interference:
the handle's value is the same at both checks. -/
def umtx_init_user (cfg : Config) (env : Env) (s : State) (v : UMTXv) :
    Except Unit (State × UMTXv) :=
  umtx_init_user_i cfg env s v v

/-- `umtx_lock` on a user handle (not `&gGlobalMutex`): the recursion
instrumentation does not apply; an uninitialized handle asserts (fatal
with assertions on) and otherwise gets the emergency `umtx_init`; the
actual lock has no effect on the modelled state. -/
def umtx_lock_user (cfg : Config) (env : Env) (s : State) (v : UMTXv) :
    Except Unit (State × UMTXv) :=
  if v = none then
    if cfg.debug then Except.error ()
    else umtx_init_user cfg env s v
  else Except.ok (s, v)

/-- `umtx_unlock` on a user handle: an uninitialized handle asserts
(fatal with assertions on) and otherwise the call just returns; a live
handle is unlocked with no effect on the modelled state. -/
def umtx_unlock_user (cfg : Config) (s : State) (v : UMTXv) :
    Except Unit (State × UMTXv) :=
  if v = none then
    if cfg.debug then Except.error () else Except.ok (s, v)
  else Except.ok (s, v)

/-- `u_setMutexFunctions` (umutex.c:299-325): respects a pre-existing
failure in `*status`; rejects any NULL callback with
`U_ILLEGAL_ARGUMENT_ERROR`; rejects a non-pristine library
(`cmemory_inUse()`) with `U_INVALID_STATE_ERROR`; otherwise installs the
four callbacks and the context as a unit.  Returns (new state, status
left in `*status`). -/
def u_setMutexFunctions (env : Env) (s : State) (c : Option Nat)
    (i d l u : Option Nat) (status : Int) : State × Int :=
  if U_FAILURE status then (s, status)
  else if i = none ∨ d = none ∨ l = none ∨ u = none then
    (s, U_ILLEGAL_ARGUMENT_ERROR)
  else if env.memoryInUse then (s, U_INVALID_STATE_ERROR)
  else
    ({ s with mutexInitFn := i, mutexDestroyFn := d, mutexLockFn := l,
              mutexUnlockFn := u, mutexContext := c }, status)

/-- `u_setAtomicIncDecFunctions` (umutex.c:391-417): same guard sequence
as `u_setMutexFunctions`, then stores `pIncFn` and `pDecFn`.  The source
never assigns `gIncDecContext` (the `context` argument is dropped), which
this definition mirrors; the trailing `U_ASSERT` self-test exercises a
local `testInt` only and touches no global. -/
def u_setAtomicIncDecFunctions (env : Env) (s : State) (c : Option Nat)
    (ip dp : Option Nat) (status : Int) : State × Int :=
  if U_FAILURE status then (s, status)
  else if ip = none ∨ dp = none then (s, U_ILLEGAL_ARGUMENT_ERROR)
  else if env.memoryInUse then (s, U_INVALID_STATE_ERROR)
  else ({ s with incFn := ip, decFn := dp }, status)

/-- Two's-complement wrap of an integer into the `int32_t` range. -/
def wrap32 (z : Int) : Int := (z + 2 ^ 31) % 2 ^ 32 - 2 ^ 31

/-- `umtx_atomic_inc` (umutex.c:343-362) acting on a cell holding `v`:
returns (new cell value, returned value).  Registered callback;
`InterlockedIncrement` on WIN32 with threads; `gIncDecMutex`-guarded
`++(*p)` on POSIX with threads; plain `++(*p)` otherwise.  All built-in
branches store and return the incremented value. -/
def umtx_atomic_inc (cfg : Config) (env : Env) (s : State) (v : Int) :
    Int × Int :=
  if s.incFn.isSome then env.cbInc v
  else if cfg.platform = .win32 ∧ cfg.useThreads then
    (wrap32 (v + 1), wrap32 (v + 1))
  else if cfg.platform = .posix ∧ cfg.useThreads then
    (wrap32 (v + 1), wrap32 (v + 1))
  else (wrap32 (v + 1), wrap32 (v + 1))

/-- `umtx_atomic_dec` (umutex.c:364-383), symmetric to
`umtx_atomic_inc`. -/
def umtx_atomic_dec (cfg : Config) (env : Env) (s : State) (v : Int) :
    Int × Int :=
  if s.decFn.isSome then env.cbDec v
  else if cfg.platform = .win32 ∧ cfg.useThreads then
    (wrap32 (v - 1), wrap32 (v - 1))
  else if cfg.platform = .posix ∧ cfg.useThreads then
    (wrap32 (v - 1), wrap32 (v - 1))
  else (wrap32 (v - 1), wrap32 (v - 1))

/-- `umtx_cleanup` (umutex.c:426-438): `umtx_destroy(NULL)`, then NULL
the four mutex callbacks and `gMutexContext`, and the two atomic
callbacks.  `gIncDecContext` is not cleared by the source.  Returns the
new state and the `TRUE` result. -/
def umtx_cleanup (cfg : Config) (s : State) : State × Bool :=
  let s1 := umtx_destroy_global cfg s
  ({ s1 with mutexInitFn := none, mutexDestroyFn := none,
             mutexLockFn := none, mutexUnlockFn := none,
             mutexContext := none, incFn := none, decFn := none }, true)

/-- States reachable from the initial (all-zero statics) state by the
public operations of umutex.c, with arbitrary external environments and
arguments at each step; aborted (assertion-failed) executions produce no
successor state. -/
inductive Reachable (cfg : Config) : State → Prop where
  | base : Reachable cfg initState
  | initGlobal (env : Env) (s : State) :
      Reachable cfg s → Reachable cfg (umtx_init_global cfg env s)
  | initUser (env : Env) (s : State) (v1 v2 : UMTXv) (s' : State)
      (v' : UMTXv) : Reachable cfg s →
      umtx_init_user_i cfg env s v1 v2 = Except.ok (s', v') →
      Reachable cfg s'
  | lockGlobal (env : Env) (s s' : State) : Reachable cfg s →
      umtx_lock_global cfg env s = Except.ok s' → Reachable cfg s'
  | unlockGlobal (s s' : State) : Reachable cfg s →
      umtx_unlock_global cfg s = Except.ok s' → Reachable cfg s'
  | lockUser (env : Env) (s : State) (v : UMTXv) (s' : State) (v' : UMTXv) :
      Reachable cfg s →
      umtx_lock_user cfg env s v = Except.ok (s', v') → Reachable cfg s'
  | unlockUser (s : State) (v : UMTXv) (s' : State) (v' : UMTXv) :
      Reachable cfg s →
      umtx_unlock_user cfg s v = Except.ok (s', v') → Reachable cfg s'
  | destroyGlobal (s : State) : Reachable cfg s →
      Reachable cfg (umtx_destroy_global cfg s)
  | destroyUser (s : State) (v : UMTXv) : Reachable cfg s →
      Reachable cfg (umtx_destroy_user cfg s v).1
  | setMutexFns (env : Env) (s : State) (c i d l u : Option Nat)
      (st : Int) : Reachable cfg s →
      Reachable cfg (u_setMutexFunctions env s c i d l u st).1
  | setAtomicFns (env : Env) (s : State) (c ip dp : Option Nat)
      (st : Int) : Reachable cfg s →
      Reachable cfg (u_setAtomicIncDecFunctions env s c ip dp st).1
  | cleanupStep (s : State) : Reachable cfg s →
      Reachable cfg (umtx_cleanup cfg s).1

end Umutex

namespace Umutex

/-! ### Concrete fixtures -/

def cfgP : Config := { platform := .posix, useThreads := true, debug := false }

def cfgPD : Config := { platform := .posix, useThreads := true, debug := true }

def envOK : Env :=
  { allocOk := fun _ => true, memoryInUse := false,
    cbInit := fun _ v => (U_ZERO_ERROR, v),
    cbInc := fun v => (v + 1, v + 1), cbDec := fun v => (v - 1, v - 1) }

def envBusy : Env := { envOK with memoryInUse := true }

def envNoAlloc : Env := { envOK with allocOk := fun _ => false }

def envCbFail : Env := { envOK with cbInit := fun _ v => (U_INVALID_STATE_ERROR, v) }

def envAllocFailFirst : Env := { envOK with allocOk := fun t => t != 0 }

def sLive : State := { initState with globalMutex := some MVal.self }

/-- The WIN32 `_DEBUG` bump of `gRecursionCount` performed by a
successful `umtx_lock` of the live global mutex (proof scaffolding). -/
def bumpRC (cfg : Config) (s : State) : State :=
  if cfg.platform = .win32 ∧ cfg.debug = true then
    { s with recursionCount := s.recursionCount + 1 }
  else s

/-- Invariant of all reachable states: `gIncDecContext` is never
assigned by any operation (registration drops its context argument), and
on non-POSIX platforms `gIncDecMutex` is never constructed. -/
def GuardInv (cfg : Config) (s : State) : Prop :=
  s.incDecContext = none ∧ (cfg.platform ≠ .posix → s.incDecMutex = none)


/-! ### Frame lemmas -/

lemma destroyVal_eq (cfg : Config) (s : State) (v : UMTXv) :
    ∃ a, destroyVal cfg s v = { s with allocated := a } := by
  unfold destroyVal
  split
  · exact ⟨s.allocated, rfl⟩
  · split
    · split <;> exact ⟨_, rfl⟩
    · exact ⟨s.allocated, rfl⟩

lemma umtx_destroy_incdec_eq (cfg : Config) (s : State) :
    ∃ m a, umtx_destroy_incdec cfg s = { s with incDecMutex := m, allocated := a } := by
  unfold umtx_destroy_incdec
  split
  · exact ⟨s.incDecMutex, s.allocated, rfl⟩
  · obtain ⟨a, ha⟩ := destroyVal_eq cfg s s.incDecMutex
    exact ⟨none, a, by rw [ha]⟩

lemma umtx_destroy_global_of_none (cfg : Config) (s : State)
    (h : s.globalMutex = none) : umtx_destroy_global cfg s = s := by
  unfold umtx_destroy_global
  rw [if_pos h]

lemma umtx_destroy_global_globalMutex (cfg : Config) (s : State) :
    (umtx_destroy_global cfg s).globalMutex = none := by
  unfold umtx_destroy_global
  split
  · assumption
  · split
    · obtain ⟨a, ha⟩ := destroyVal_eq cfg s s.globalMutex
      obtain ⟨m, a2, h2⟩ := umtx_destroy_incdec_eq cfg { destroyVal cfg s s.globalMutex with globalMutex := none }
      rw [h2, ha]
    · obtain ⟨a, ha⟩ := destroyVal_eq cfg s s.globalMutex
      rw [ha]

/-- Claim C5: `umtx_destroy` is idempotent — destroying an
already-uninitialized handle is a no-op, destroy-after-destroy equals a
single destroy, and destroying any handle always leaves it
uninitialized (NULL) afterwards; likewise for the global mutex. -/
theorem umtx_destroy_idempotent (cfg : Config) (s : State) (v : UMTXv) :
    umtx_destroy_user cfg s none = (s, none) ∧
    (umtx_destroy_user cfg s v).2 = none ∧
    umtx_destroy_user cfg (umtx_destroy_user cfg s v).1
        (umtx_destroy_user cfg s v).2 = ((umtx_destroy_user cfg s v).1, none) ∧
    (umtx_destroy_global cfg s).globalMutex = none ∧
    umtx_destroy_global cfg (umtx_destroy_global cfg s) =
      umtx_destroy_global cfg s := by
  have h1 : umtx_destroy_user cfg s none = (s, none) := by
    simp [umtx_destroy_user]
  have h2 : (umtx_destroy_user cfg s v).2 = none := by
    unfold umtx_destroy_user; split <;> rfl
  have h4 := umtx_destroy_global_globalMutex cfg s
  refine ⟨h1, h2, ?_, h4, ?_⟩
  · rw [h2]
    simp [umtx_destroy_user]
  · exact umtx_destroy_global_of_none cfg _ h4


/-- Claim C10: pre-existing failure status short-circuits both
registration functions. -/
theorem setFunctions_prior_failure (env : Env) (s : State)
    (c i d l u ip dp : Option Nat) (status : Int)
    (hst : U_FAILURE status = true) :
    u_setMutexFunctions env s c i d l u status = (s, status) ∧
    u_setAtomicIncDecFunctions env s c ip dp status = (s, status) := by
  constructor
  · unfold u_setMutexFunctions
    rw [if_pos]
    exact hst ▸ rfl
  · unfold u_setAtomicIncDecFunctions
    rw [if_pos]
    exact hst ▸ rfl

theorem setFunctions_prior_failure_witness :
    u_setMutexFunctions envBusy initState none none none none none 1 =
      (initState, 1) ∧
    u_setAtomicIncDecFunctions envBusy initState none none none 1 =
      (initState, 1) :=
  setFunctions_prior_failure envBusy initState none none none none none
    none none 1 (by decide)

/-- Claim C6: a NULL callback argument yields U_ILLEGAL_ARGUMENT_ERROR
and no mutation. -/
theorem setFunctions_null_arg (env : Env) (s : State)
    (c i d l u ip dp : Option Nat) (status : Int)
    (hst : U_FAILURE status = false) :
    ((i = none ∨ d = none ∨ l = none ∨ u = none) →
      u_setMutexFunctions env s c i d l u status =
        (s, U_ILLEGAL_ARGUMENT_ERROR)) ∧
    ((ip = none ∨ dp = none) →
      u_setAtomicIncDecFunctions env s c ip dp status =
        (s, U_ILLEGAL_ARGUMENT_ERROR)) := by
  constructor
  · intro h
    unfold u_setMutexFunctions
    rw [if_neg (by rw [hst]; exact Bool.false_ne_true), if_pos h]
  · intro h
    unfold u_setAtomicIncDecFunctions
    rw [if_neg (by rw [hst]; exact Bool.false_ne_true), if_pos h]

theorem setFunctions_null_arg_witness :
    u_setMutexFunctions envOK sLive (some 9) none (some 1) (some 2) (some 3)
        U_ZERO_ERROR = (sLive, U_ILLEGAL_ARGUMENT_ERROR) ∧
    u_setAtomicIncDecFunctions envOK sLive (some 9) none (some 1)
        U_ZERO_ERROR = (sLive, U_ILLEGAL_ARGUMENT_ERROR) := by
  have h := setFunctions_null_arg envOK sLive (some 9) none (some 1) (some 2)
    (some 3) none (some 1) U_ZERO_ERROR (by decide)
  exact ⟨h.1 (Or.inl rfl), h.2 (Or.inl rfl)⟩

/-- Claim C7: registration with non-null callbacks after the library has
begun real work yields U_INVALID_STATE_ERROR and no mutation. -/
theorem setFunctions_in_use (env : Env) (s : State)
    (c i d l u ip dp : Option Nat) (status : Int)
    (hst : U_FAILURE status = false)
    (hmem : env.memoryInUse = true) :
    (i ≠ none → d ≠ none → l ≠ none → u ≠ none →
      u_setMutexFunctions env s c i d l u status =
        (s, U_INVALID_STATE_ERROR)) ∧
    (ip ≠ none → dp ≠ none →
      u_setAtomicIncDecFunctions env s c ip dp status =
        (s, U_INVALID_STATE_ERROR)) := by
  constructor
  · intro hi hd hl hu
    unfold u_setMutexFunctions
    rw [if_neg (by rw [hst]; exact Bool.false_ne_true),
        if_neg (by push_neg; exact ⟨hi, hd, hl, hu⟩), if_pos hmem]
  · intro hi hd
    unfold u_setAtomicIncDecFunctions
    rw [if_neg (by rw [hst]; exact Bool.false_ne_true),
        if_neg (by push_neg; exact ⟨hi, hd⟩), if_pos hmem]

theorem setFunctions_in_use_witness :
    u_setMutexFunctions envBusy sLive (some 9) (some 1) (some 2) (some 3)
        (some 4) U_ZERO_ERROR = (sLive, U_INVALID_STATE_ERROR) ∧
    u_setAtomicIncDecFunctions envBusy sLive (some 9) (some 1) (some 2)
        U_ZERO_ERROR = (sLive, U_INVALID_STATE_ERROR) := by
  have h := setFunctions_in_use envBusy sLive (some 9) (some 1) (some 2)
    (some 3) (some 4) (some 1) (some 2) U_ZERO_ERROR (by decide) (by decide)
  exact ⟨h.1 (by simp) (by simp) (by simp) (by simp), h.2 (by simp) (by simp)⟩


/-- Claim C9: construction failure is swallowed and leaves the handle
uninitialized. -/
theorem umtx_raw_init_failure (cfg : Config) (env : Env) (s : State) :
    (s.mutexInitFn = none → cfg.useThreads = true → cfg.platform ≠ .other →
      env.allocOk s.tick = false →
      umtx_raw_init cfg env s none = ({ s with tick := s.tick + 1 }, none)) ∧
    (∀ f, s.mutexInitFn = some f →
      U_FAILURE (env.cbInit s.tick none).1 = true →
      (env.cbInit s.tick none).2 = none →
      umtx_raw_init cfg env s none = ({ s with tick := s.tick + 1 }, none)) := by
  constructor
  · intro hcb hth hpl hal
    unfold umtx_raw_init
    rw [hcb]
    simp only [hth, if_true]
    match hp : cfg.platform with
    | .win32 => simp [hal]
    | .posix => simp [hal]
    | .other => exact absurd hp hpl
  · intro f hcb hfail hwrite
    unfold umtx_raw_init
    rw [hcb]
    simp [hwrite]

theorem umtx_raw_init_failure_witness :
    umtx_raw_init cfgP envNoAlloc initState none =
      ({ initState with tick := 1 }, none) ∧
    umtx_raw_init cfgP envCbFail { initState with mutexInitFn := some 5 } none =
      ({ initState with mutexInitFn := some 5, tick := 1 }, none) := by
  have h1 := (umtx_raw_init_failure cfgP envNoAlloc initState).1 rfl rfl
    (by decide) rfl
  have h2 := (umtx_raw_init_failure cfgP envCbFail
    { initState with mutexInitFn := some 5 }).2 5 rfl (by decide) rfl
  exact ⟨h1, h2⟩

lemma wrap32_add_one_ne (v : Int) : wrap32 (v + 1) ≠ v := by
  unfold wrap32
  omega

lemma wrap32_sub_one_ne (v : Int) : wrap32 (v - 1) ≠ v := by
  unfold wrap32
  omega

/-- Claim C2: atomic increment/decrement return the post-update value on
every path. -/
theorem umtx_atomic_post_update (cfg : Config) (env : Env) (s : State)
    (v : Int) :
    (s.incFn = none →
      umtx_atomic_inc cfg env s v = (wrap32 (v + 1), wrap32 (v + 1)) ∧
      (umtx_atomic_inc cfg env s v).2 ≠ v) ∧
    (s.decFn = none →
      umtx_atomic_dec cfg env s v = (wrap32 (v - 1), wrap32 (v - 1)) ∧
      (umtx_atomic_dec cfg env s v).2 ≠ v) ∧
    (s.incFn.isSome = true → (∀ w, (env.cbInc w).2 = (env.cbInc w).1) →
      (umtx_atomic_inc cfg env s v).2 = (umtx_atomic_inc cfg env s v).1) ∧
    (s.decFn.isSome = true → (∀ w, (env.cbDec w).2 = (env.cbDec w).1) →
      (umtx_atomic_dec cfg env s v).2 = (umtx_atomic_dec cfg env s v).1) ∧
    (s.incFn = none → s.decFn = none →
      (umtx_atomic_inc cfg env s 0).2 = 1 ∧
      (umtx_atomic_inc cfg env s 1).2 = 2 ∧
      (umtx_atomic_dec cfg env s 2).2 = 1) := by
  have hinc : ∀ w : Int, s.incFn = none →
      umtx_atomic_inc cfg env s w = (wrap32 (w + 1), wrap32 (w + 1)) := by
    intro w h
    unfold umtx_atomic_inc
    rw [h]
    simp only [Option.isSome_none, Bool.false_eq_true, if_false]
    split_ifs <;> rfl
  have hdec : ∀ w : Int, s.decFn = none →
      umtx_atomic_dec cfg env s w = (wrap32 (w - 1), wrap32 (w - 1)) := by
    intro w h
    unfold umtx_atomic_dec
    rw [h]
    simp only [Option.isSome_none, Bool.false_eq_true, if_false]
    split_ifs <;> rfl
  refine ⟨fun h => ⟨hinc v h, ?_⟩, fun h => ⟨hdec v h, ?_⟩, ?_, ?_, fun hi hd => ?_⟩
  · rw [hinc v h]
    exact wrap32_add_one_ne v
  · rw [hdec v h]
    exact wrap32_sub_one_ne v
  · intro h hcb
    unfold umtx_atomic_inc
    rw [if_pos h]
    exact hcb v
  · intro h hcb
    unfold umtx_atomic_dec
    rw [if_pos h]
    exact hcb v
  · rw [hinc 0 hi, hinc 1 hi, hdec 2 hd]
    refine ⟨?_, ?_, ?_⟩ <;> decide

theorem umtx_atomic_post_update_witness :
    umtx_atomic_inc cfgP envOK initState 0 = (1, 1) ∧
    umtx_atomic_inc cfgP envOK initState 1 = (2, 2) ∧
    umtx_atomic_dec cfgP envOK initState 2 = (1, 1) := by
  have h := umtx_atomic_post_update cfgP envOK initState 0
  have h0 := (h.1 rfl).1
  have h1 := ((umtx_atomic_post_update cfgP envOK initState 1).1 rfl).1
  have h2 := ((umtx_atomic_post_update cfgP envOK initState 2).2.1 rfl).1
  rw [h0, h1, h2]
  refine ⟨?_, ?_, ?_⟩ <;> decide


lemma umtx_raw_init_success (cfg : Config) (env : Env) (s : State) (v : UMTXv)
    (hcb : s.mutexInitFn = none) (hth : cfg.useThreads = true)
    (hpl : cfg.platform ≠ .other) (hal : env.allocOk s.tick = true) :
    umtx_raw_init cfg env s v =
      ({ s with nextObj := s.nextObj + 1,
                allocated := s.nextObj :: s.allocated,
                tick := s.tick + 1 }, some (.obj s.nextObj)) := by
  unfold umtx_raw_init
  rw [hcb]
  simp only [hth, if_true]
  match hp : cfg.platform with
  | .win32 => simp [hal]
  | .posix => simp [hal]
  | .other => exact absurd hp hpl

/-- Claim C8: global-mutex initialization is idempotent when live;
on POSIX a successful construction also constructs the guard mutex and
resets the recursion counter. -/
theorem umtx_init_global_spec (cfg : Config) (env : Env) (s : State) :
    (s.globalMutex.isSome = true → umtx_init_global cfg env s = s) ∧
    (s.globalMutex = none → s.mutexInitFn = none → cfg.useThreads = true →
      cfg.platform = .posix → env.allocOk s.tick = true →
      env.allocOk (s.tick + 1) = true →
      umtx_init_global cfg env s =
        { s with globalMutex := some (.obj s.nextObj),
                 incDecMutex := some (.obj (s.nextObj + 1)),
                 recursionCount := 0,
                 allocated := (s.nextObj + 1) :: s.nextObj :: s.allocated,
                 nextObj := s.nextObj + 1 + 1,
                 tick := s.tick + 1 + 1 }) := by
  constructor
  · intro h
    unfold umtx_init_global
    rw [if_pos h]
  · intro hgm hcb hth hpl hal hal2
    unfold umtx_init_global
    rw [umtx_raw_init_success cfg env s _ hcb hth (by rw [hpl]; decide) hal]
    have h0 : s.globalMutex.isSome = false := by rw [hgm]; rfl
    rw [h0]
    simp only [Bool.false_eq_true, if_false, if_pos hpl]
    rw [umtx_raw_init_success cfg env _ _ (by exact hcb) (by exact hth)
      (by rw [hpl]; decide) (by exact hal2)]

theorem umtx_init_global_spec_witness :
    umtx_init_global cfgP envOK initState =
      { initState with globalMutex := some (.obj 0),
                       incDecMutex := some (.obj 1),
                       allocated := [1, 0], nextObj := 2, tick := 2 } := by
  have h := (umtx_init_global_spec cfgP envOK initState).2 rfl rfl rfl rfl
    rfl rfl
  exact h

lemma umtx_lock_global_live (cfg : Config) (env : Env) (s : State)
    (g : MVal) (hg : s.globalMutex = some g)
    (hr : cfg.platform = .win32 ∧ cfg.debug = true → s.recursionCount = 0) :
    umtx_lock_global cfg env s = Except.ok (bumpRC cfg s) := by
  unfold umtx_lock_global umtx_lock_finish bumpRC
  rw [if_neg (by rw [hg]; exact fun h => Option.noConfusion h)]
  split_ifs with h
  · rw [if_pos (by simp [hr h])]
  · rfl

lemma umtx_unlock_global_bump (cfg : Config) (s : State) (g : MVal)
    (hg : s.globalMutex = some g)
    (hr : cfg.platform = .win32 ∧ cfg.debug = true → s.recursionCount = 0) :
    umtx_unlock_global cfg (bumpRC cfg s) = Except.ok s := by
  by_cases h : cfg.platform = .win32 ∧ cfg.debug = true
  · have hb : bumpRC cfg s = { s with recursionCount := s.recursionCount + 1 } := by
      unfold bumpRC; rw [if_pos h]
    rw [hb]
    unfold umtx_unlock_global
    rw [if_neg (by simp [hg]), if_pos h]
    dsimp only
    rw [show s.recursionCount + 1 - 1 = s.recursionCount from by omega]
    rw [if_pos (hr h)]
  · have hb : bumpRC cfg s = s := by unfold bumpRC; rw [if_neg h]
    rw [hb]
    unfold umtx_unlock_global
    rw [if_neg (by simp [hg]), if_neg h]


lemma destroyVal_obj (cfg : Config) (s : State) (i : Nat)
    (hd : s.mutexDestroyFn = none) (hth : cfg.useThreads = true)
    (hpl : cfg.platform ≠ .other) :
    destroyVal cfg s (some (.obj i)) =
      { s with allocated := s.allocated.erase i } := by
  unfold destroyVal
  rw [hd]
  simp only [hth, if_true]
  match hp : cfg.platform with
  | .win32 => rfl
  | .posix => rfl
  | .other => exact absurd hp hpl

/-- Characterization of the double-checked non-global `umtx_init` under a
live global mutex: already-live handles are returned unchanged; a fresh
handle gets the newly constructed temporary; a handle installed by an
interfering thread between the two checks wins, and the loser's
temporary is freed. -/
lemma umtx_init_user_i_char (cfg : Config) (env : Env) (s : State)
    (v1 v2 : UMTXv) (g : MVal) (hg : s.globalMutex = some g)
    (hr : cfg.platform = .win32 ∧ cfg.debug = true → s.recursionCount = 0) :
    (v1.isSome = true →
      umtx_init_user_i cfg env s v1 v2 = Except.ok (s, v1)) ∧
    (v1 = none → s.mutexInitFn = none → cfg.useThreads = true →
      cfg.platform ≠ .other → env.allocOk s.tick = true →
      ((v2 = none → umtx_init_user_i cfg env s v1 v2 =
          Except.ok ({ s with nextObj := s.nextObj + 1,
                              allocated := s.nextObj :: s.allocated,
                              tick := s.tick + 1 }, some (.obj s.nextObj))) ∧
       (v2 ≠ none → s.mutexDestroyFn = none →
          umtx_init_user_i cfg env s v1 v2 =
            Except.ok ({ s with nextObj := s.nextObj + 1,
                                tick := s.tick + 1 }, v2)))) := by
  have hlock := umtx_lock_global_live cfg env s g hg hr
  have hunlock := umtx_unlock_global_bump cfg s g hg hr
  constructor
  · intro h1
    unfold umtx_init_user_i
    rw [hlock]
    dsimp only
    rw [hunlock]
    dsimp only
    rw [if_pos h1]
  · intro hv1 hcb hth hpl hal
    subst hv1
    have hra := umtx_raw_init_success cfg env s none hcb hth hpl hal
    have hg2 : ({ s with nextObj := s.nextObj + 1,
                         allocated := s.nextObj :: s.allocated,
                         tick := s.tick + 1 } : State).globalMutex = some g := hg
    have hr2 : cfg.platform = .win32 ∧ cfg.debug = true →
        ({ s with nextObj := s.nextObj + 1,
                  allocated := s.nextObj :: s.allocated,
                  tick := s.tick + 1 } : State).recursionCount = 0 := hr
    have hlock2 := umtx_lock_global_live cfg env _ g hg2 hr2
    have hunlock2 := umtx_unlock_global_bump cfg _ g hg2 hr2
    constructor
    · intro hv2
      subst hv2
      unfold umtx_init_user_i
      rw [hlock]
      dsimp only
      rw [hunlock]
      dsimp only
      rw [if_neg (by simp)]
      rw [hra]
      dsimp only
      rw [hlock2]
      dsimp only
      rw [hunlock2]
      dsimp only
      rw [if_pos rfl]
      dsimp only
      rw [if_neg (by simp)]
    · intro hv2 hd
      unfold umtx_init_user_i
      rw [hlock]
      dsimp only
      rw [hunlock]
      dsimp only
      rw [if_neg (by simp)]
      rw [hra]
      dsimp only
      rw [hlock2]
      dsimp only
      rw [if_neg hv2]
      dsimp only
      rw [hunlock2]
      dsimp only
      rw [if_pos (show (some (MVal.obj s.nextObj)).isSome = true from rfl)]
      unfold umtx_destroy_user
      rw [if_neg (by simp)]
      rw [destroyVal_obj cfg _ s.nextObj (by exact hd) hth hpl]
      dsimp only
      rw [List.erase_cons_head]


/-- Claim C1: non-global initialize — live handles unchanged, fresh
handles get exactly one freshly constructed object, racing losers destroy
their unclaimed temporary instead of leaking it. -/
theorem umtx_init_nonglobal_once (cfg : Config) (env : Env) (s : State)
    (v1 v2 : UMTXv) (g : MVal) (hg : s.globalMutex = some g)
    (hr : cfg.platform = .win32 ∧ cfg.debug = true → s.recursionCount = 0)
    (hcb : s.mutexInitFn = none) (hd : s.mutexDestroyFn = none)
    (hth : cfg.useThreads = true) (hpl : cfg.platform ≠ .other)
    (hal : env.allocOk s.tick = true) (hfresh : s.nextObj ∉ s.allocated) :
    (v1.isSome = true →
      umtx_init_user_i cfg env s v1 v2 = Except.ok (s, v1)) ∧
    (v1 = none → v2 = none → ∃ s',
      umtx_init_user_i cfg env s v1 v2 =
          Except.ok (s', some (.obj s.nextObj)) ∧
      s'.allocated.count s.nextObj = 1) ∧
    (v1 = none → v2 ≠ none → ∃ s',
      umtx_init_user_i cfg env s v1 v2 = Except.ok (s', v2) ∧
      s.nextObj ∉ s'.allocated ∧ s'.allocated = s.allocated) := by
  have hchar := umtx_init_user_i_char cfg env s v1 v2 g hg hr
  refine ⟨hchar.1, fun hv1 hv2 => ?_, fun hv1 hv2 => ?_⟩
  · refine ⟨_, (hchar.2 hv1 hcb hth hpl hal).1 hv2, ?_⟩
    simp only [List.count_cons_self]
    rw [List.count_eq_zero_of_not_mem hfresh]
  · exact ⟨_, (hchar.2 hv1 hcb hth hpl hal).2 hv2 hd, hfresh, rfl⟩

theorem umtx_init_nonglobal_once_witness :
    (umtx_init_user_i cfgP envOK sLive (some MVal.self) none =
      Except.ok (sLive, some MVal.self)) ∧
    (∃ s', umtx_init_user_i cfgP envOK sLive none none =
        Except.ok (s', some (.obj 0)) ∧ s'.allocated.count 0 = 1) ∧
    (∃ s', umtx_init_user_i cfgP envOK sLive none (some (.obj 77)) =
        Except.ok (s', some (.obj 77)) ∧ 0 ∉ s'.allocated) := by
  have h1 := (umtx_init_nonglobal_once cfgP envOK sLive (some MVal.self)
    none MVal.self rfl (by intro h; exact absurd h.1 (by decide)) rfl rfl rfl
    (by decide) rfl (by simp [sLive, initState])).1 rfl
  have h2 := (umtx_init_nonglobal_once cfgP envOK sLive none none MVal.self
    rfl (by intro h; exact absurd h.1 (by decide)) rfl rfl rfl
    (by decide) rfl (by simp [sLive, initState])).2.1 rfl rfl
  have h3 := (umtx_init_nonglobal_once cfgP envOK sLive none (some (.obj 77))
    MVal.self rfl (by intro h; exact absurd h.1 (by decide)) rfl rfl rfl
    (by decide) rfl (by simp [sLive, initState])).2.2 rfl (by simp)
  obtain ⟨s2, hs2, hc2⟩ := h2
  obtain ⟨s3, hs3, hn3, _⟩ := h3
  exact ⟨h1, ⟨s2, hs2, hc2⟩, ⟨s3, hs3, hn3⟩⟩

/-- Claim C4 counterexample: in a release build (assertions compiled
out), `umtx_unlock` on an uninitialized handle returns immediately with
the handle still NULL and the state untouched — no emergency initialize
is performed, contrary to the claim. -/
theorem umtx_unlock_uninit_cex :
    umtx_unlock_user cfgP initState none = Except.ok (initState, none) := by
  rfl


lemma umtx_raw_init_frame (cfg : Config) (env : Env) (s : State)
    (v : UMTXv) : ∃ a n t, (umtx_raw_init cfg env s v).1 =
      { s with allocated := a, nextObj := n, tick := t } := by
  unfold umtx_raw_init
  repeat' split
  all_goals exact ⟨_, _, _, rfl⟩

lemma umtx_init_global_eq (cfg : Config) (env : Env) (s : State)
    (hgm : s.globalMutex = none) (hcb : s.mutexInitFn = none)
    (hth : cfg.useThreads = true) (hpl : cfg.platform ≠ .other)
    (hal : env.allocOk s.tick = true) :
    ∃ m a n t, umtx_init_global cfg env s =
      { s with globalMutex := some (.obj s.nextObj), incDecMutex := m,
               recursionCount := 0, allocated := a, nextObj := n,
               tick := t } := by
  unfold umtx_init_global
  have h0 : s.globalMutex.isSome = false := by rw [hgm]; rfl
  rw [h0]
  simp only [Bool.false_eq_true, if_false]
  rw [umtx_raw_init_success cfg env s _ hcb hth hpl hal]
  dsimp only
  split
  · obtain ⟨a, n, t, hf⟩ := umtx_raw_init_frame cfg env
      { s with globalMutex := some (MVal.obj s.nextObj),
               recursionCount := 0,
               allocated := s.nextObj :: s.allocated,
               nextObj := s.nextObj + 1,
               tick := s.tick + 1 } s.incDecMutex
    rw [hf]
    exact ⟨_, _, _, _, rfl⟩
  · exact ⟨s.incDecMutex, _, _, _, rfl⟩

/-- Claim C4 (amended): on an uninitialized handle, lock and unlock are
fatal assertions in debug builds; in release builds lock performs the
best-effort emergency initialize before proceeding, while unlock returns
immediately without initializing. -/
theorem umtx_lock_unlock_uninit (cfg : Config) (env : Env) (s : State) :
    (cfg.debug = true →
      umtx_lock_user cfg env s none = Except.error () ∧
      umtx_unlock_user cfg s none = Except.error () ∧
      (s.globalMutex = none →
        umtx_lock_global cfg env s = Except.error () ∧
        umtx_unlock_global cfg s = Except.error ())) ∧
    (cfg.debug = false →
      umtx_unlock_user cfg s none = Except.ok (s, none) ∧
      (s.globalMutex = none → umtx_unlock_global cfg s = Except.ok s) ∧
      (s.mutexInitFn = none → cfg.useThreads = true →
        cfg.platform ≠ .other → env.allocOk s.tick = true →
        ((s.globalMutex = none → ∃ s',
            umtx_lock_global cfg env s = Except.ok s' ∧
            s'.globalMutex = some (.obj s.nextObj)) ∧
         (∀ g, s.globalMutex = some g → ∃ s',
            umtx_lock_user cfg env s none =
              Except.ok (s', some (.obj s.nextObj)))))) := by
  constructor
  · intro hdbg
    refine ⟨?_, ?_, fun hgm => ⟨?_, ?_⟩⟩
    · unfold umtx_lock_user
      rw [if_pos rfl, if_pos hdbg]
    · unfold umtx_unlock_user
      rw [if_pos rfl, if_pos hdbg]
    · unfold umtx_lock_global
      rw [if_pos hgm, if_pos hdbg]
    · unfold umtx_unlock_global
      rw [if_pos hgm, if_pos hdbg]
  · intro hdbg
    have hnwd : ¬(cfg.platform = .win32 ∧ cfg.debug = true) := by
      rw [hdbg]; exact fun h => Bool.false_ne_true h.2
    refine ⟨?_, fun hgm => ?_, fun hcb hth hpl hal => ⟨fun hgm => ?_, ?_⟩⟩
    · unfold umtx_unlock_user
      rw [if_pos rfl, if_neg (by rw [hdbg]; exact Bool.false_ne_true)]
    · unfold umtx_unlock_global
      rw [if_pos hgm, if_neg (by rw [hdbg]; exact Bool.false_ne_true)]
    · obtain ⟨m, a, n, t, hie⟩ :=
        umtx_init_global_eq cfg env s hgm hcb hth hpl hal
      refine ⟨umtx_init_global cfg env s, ?_, by rw [hie]⟩
      unfold umtx_lock_global
      rw [if_pos hgm, if_neg (by rw [hdbg]; exact Bool.false_ne_true)]
      unfold umtx_lock_finish
      rw [if_neg hnwd]
    · intro g hg
      have hchar := umtx_init_user_i_char cfg env s none none g hg
        (fun h => absurd h.2 (by rw [hdbg]; exact Bool.false_ne_true))
      refine ⟨{ s with nextObj := s.nextObj + 1,
                       allocated := s.nextObj :: s.allocated,
                       tick := s.tick + 1 }, ?_⟩
      unfold umtx_lock_user
      rw [if_pos rfl, if_neg (by rw [hdbg]; exact Bool.false_ne_true)]
      unfold umtx_init_user
      exact (hchar.2 rfl hcb hth hpl hal).1 rfl


theorem umtx_lock_unlock_uninit_witness :
    (umtx_lock_user cfgPD envOK initState none = Except.error () ∧
     umtx_unlock_user cfgPD initState none = Except.error ()) ∧
    umtx_unlock_user cfgP initState none = Except.ok (initState, none) ∧
    (∃ s', umtx_lock_user cfgP envOK sLive none =
      Except.ok (s', some (.obj 0))) := by
  have hd := (umtx_lock_unlock_uninit cfgPD envOK initState).1 rfl
  have hr := (umtx_lock_unlock_uninit cfgP envOK sLive).2 rfl
  have hr2 := (umtx_lock_unlock_uninit cfgP envOK initState).2 rfl
  refine ⟨⟨hd.1, hd.2.1⟩, hr2.1, ?_⟩
  exact (hr.2.2 rfl rfl (by decide) rfl).2 MVal.self rfl

lemma GuardInv_raw_init (cfg : Config) (env : Env) (s : State) (v : UMTXv)
    (h : GuardInv cfg s) : GuardInv cfg (umtx_raw_init cfg env s v).1 := by
  obtain ⟨a, n, t, hf⟩ := umtx_raw_init_frame cfg env s v
  rw [hf]
  exact h

lemma umtx_init_global_frame (cfg : Config) (env : Env) (s : State) :
    ∃ gm m r a n t, umtx_init_global cfg env s =
      { s with globalMutex := gm, incDecMutex := m, recursionCount := r,
               allocated := a, nextObj := n, tick := t } ∧
      (cfg.platform ≠ .posix → m = s.incDecMutex) := by
  unfold umtx_init_global
  split
  · exact ⟨s.globalMutex, s.incDecMutex, s.recursionCount, s.allocated,
      s.nextObj, s.tick, rfl, fun _ => rfl⟩
  · obtain ⟨a1, n1, t1, hf1⟩ :=
      umtx_raw_init_frame cfg env s s.globalMutex
    dsimp only
    rw [hf1]
    split
    · rename_i hp
      obtain ⟨a2, n2, t2, hf2⟩ := umtx_raw_init_frame cfg env
        { s with globalMutex := (umtx_raw_init cfg env s s.globalMutex).2,
                 recursionCount := 0, allocated := a1, nextObj := n1,
                 tick := t1 } s.incDecMutex
      rw [hf2]
      exact ⟨_, _, _, _, _, _, rfl, fun hnp => absurd hp hnp⟩
    · exact ⟨_, s.incDecMutex, _, _, _, _, rfl, fun _ => rfl⟩

lemma GuardInv_init_global (cfg : Config) (env : Env) (s : State)
    (h : GuardInv cfg s) : GuardInv cfg (umtx_init_global cfg env s) := by
  obtain ⟨gm, m, r, a, n, t, hf, hm⟩ := umtx_init_global_frame cfg env s
  rw [hf]
  exact ⟨h.1, fun hnp => by rw [show m = s.incDecMutex from hm hnp]; exact h.2 hnp⟩

lemma GuardInv_lock_finish (cfg : Config) (s s' : State)
    (h : GuardInv cfg s) (hok : umtx_lock_finish cfg s = Except.ok s') :
    GuardInv cfg s' := by
  unfold umtx_lock_finish at hok
  split at hok
  · dsimp only at hok
    split at hok
    · simp only [Except.ok.injEq] at hok
      subst hok
      exact h
    · exact Except.noConfusion hok
  · simp only [Except.ok.injEq] at hok
    subst hok
    exact h

lemma GuardInv_lock_global (cfg : Config) (env : Env) (s s' : State)
    (h : GuardInv cfg s) (hok : umtx_lock_global cfg env s = Except.ok s') :
    GuardInv cfg s' := by
  unfold umtx_lock_global at hok
  split at hok
  · split at hok
    · exact Except.noConfusion hok
    · exact GuardInv_lock_finish cfg _ s' (GuardInv_init_global cfg env s h) hok
  · exact GuardInv_lock_finish cfg s s' h hok

lemma GuardInv_unlock_global (cfg : Config) (s s' : State)
    (h : GuardInv cfg s) (hok : umtx_unlock_global cfg s = Except.ok s') :
    GuardInv cfg s' := by
  unfold umtx_unlock_global at hok
  split at hok
  · split at hok
    · exact Except.noConfusion hok
    · simp only [Except.ok.injEq] at hok
      subst hok
      exact h
  · split at hok
    · dsimp only at hok
      split at hok
      · simp only [Except.ok.injEq] at hok
        subst hok
        exact h
      · exact Except.noConfusion hok
    · simp only [Except.ok.injEq] at hok
      subst hok
      exact h

lemma GuardInv_destroyVal (cfg : Config) (s : State) (v : UMTXv)
    (h : GuardInv cfg s) : GuardInv cfg (destroyVal cfg s v) := by
  obtain ⟨a, ha⟩ := destroyVal_eq cfg s v
  rw [ha]
  exact h

lemma GuardInv_destroy_user (cfg : Config) (s : State) (v : UMTXv)
    (h : GuardInv cfg s) : GuardInv cfg (umtx_destroy_user cfg s v).1 := by
  unfold umtx_destroy_user
  split
  · exact h
  · exact GuardInv_destroyVal cfg s v h

lemma umtx_destroy_incdec_incDecMutex (cfg : Config) (s : State) :
    (umtx_destroy_incdec cfg s).incDecMutex = none := by
  unfold umtx_destroy_incdec
  split
  · assumption
  · obtain ⟨a, ha⟩ := destroyVal_eq cfg s s.incDecMutex
    rw [ha]

lemma GuardInv_destroy_incdec (cfg : Config) (s : State)
    (h : GuardInv cfg s) : GuardInv cfg (umtx_destroy_incdec cfg s) := by
  unfold umtx_destroy_incdec
  split
  · exact h
  · obtain ⟨a, ha⟩ := destroyVal_eq cfg s s.incDecMutex
    rw [ha]
    exact ⟨h.1, fun _ => rfl⟩

lemma GuardInv_destroy_global (cfg : Config) (s : State)
    (h : GuardInv cfg s) : GuardInv cfg (umtx_destroy_global cfg s) := by
  unfold umtx_destroy_global
  split
  · exact h
  · obtain ⟨a, ha⟩ := destroyVal_eq cfg s s.globalMutex
    split
    · exact GuardInv_destroy_incdec cfg _ (by rw [ha]; exact h)
    · rw [ha]
      exact h

lemma GuardInv_init_user_i (cfg : Config) (env : Env) (s : State)
    (v1 v2 : UMTXv) (s' : State) (v' : UMTXv) (h : GuardInv cfg s)
    (hok : umtx_init_user_i cfg env s v1 v2 = Except.ok (s', v')) :
    GuardInv cfg s' := by
  unfold umtx_init_user_i at hok
  cases hl : umtx_lock_global cfg env s with
  | error e => rw [hl] at hok; exact Except.noConfusion hok
  | ok s1 =>
    rw [hl] at hok
    dsimp only at hok
    have h1 := GuardInv_lock_global cfg env s s1 h hl
    cases hu : umtx_unlock_global cfg s1 with
    | error e => rw [hu] at hok; exact Except.noConfusion hok
    | ok s2 =>
      rw [hu] at hok
      dsimp only at hok
      have h2 := GuardInv_unlock_global cfg s1 s2 h1 hu
      by_cases hv : v1.isSome = true
      · rw [if_pos hv] at hok
        simp only [Except.ok.injEq, Prod.mk.injEq] at hok
        rw [← hok.1]
        exact h2
      · rw [if_neg hv] at hok
        have h3 := GuardInv_raw_init cfg env s2 none h2
        cases hl2 : umtx_lock_global cfg env
            (umtx_raw_init cfg env s2 none).1 with
        | error e => rw [hl2] at hok; exact Except.noConfusion hok
        | ok s4 =>
          rw [hl2] at hok
          dsimp only at hok
          have h4 := GuardInv_lock_global cfg env _ s4 h3 hl2
          cases hu2 : umtx_unlock_global cfg s4 with
          | error e => rw [hu2] at hok; exact Except.noConfusion hok
          | ok s6 =>
            rw [hu2] at hok
            dsimp only at hok
            have h6 := GuardInv_unlock_global cfg s4 s6 h4 hu2
            by_cases hv2 : v2 = none
            · rw [if_pos hv2] at hok
              dsimp only at hok
              rw [if_neg (by simp)] at hok
              simp only [Except.ok.injEq, Prod.mk.injEq] at hok
              rw [← hok.1]
              exact h6
            · rw [if_neg hv2] at hok
              dsimp only at hok
              by_cases hro : (umtx_raw_init cfg env s2 none).2.isSome = true
              · rw [if_pos hro] at hok
                simp only [Except.ok.injEq, Prod.mk.injEq] at hok
                rw [← hok.1]
                exact GuardInv_destroy_user cfg s6 _ h6
              · rw [if_neg hro] at hok
                simp only [Except.ok.injEq, Prod.mk.injEq] at hok
                rw [← hok.1]
                exact h6


lemma GuardInv_setMutexFunctions (env : Env) (cfg : Config) (s : State)
    (c i d l u : Option Nat) (st : Int) (h : GuardInv cfg s) :
    GuardInv cfg (u_setMutexFunctions env s c i d l u st).1 := by
  unfold u_setMutexFunctions
  split
  · exact h
  · split
    · exact h
    · split
      · exact h
      · exact h

lemma GuardInv_setAtomicFunctions (env : Env) (cfg : Config) (s : State)
    (c ip dp : Option Nat) (st : Int) (h : GuardInv cfg s) :
    GuardInv cfg (u_setAtomicIncDecFunctions env s c ip dp st).1 := by
  unfold u_setAtomicIncDecFunctions
  split
  · exact h
  · split
    · exact h
    · split
      · exact h
      · exact h

lemma GuardInv_lock_user (cfg : Config) (env : Env) (s : State) (v : UMTXv)
    (s' : State) (v' : UMTXv) (h : GuardInv cfg s)
    (hok : umtx_lock_user cfg env s v = Except.ok (s', v')) :
    GuardInv cfg s' := by
  unfold umtx_lock_user at hok
  split at hok
  · split at hok
    · exact Except.noConfusion hok
    · unfold umtx_init_user at hok
      exact GuardInv_init_user_i cfg env s _ _ s' v' h hok
  · simp only [Except.ok.injEq, Prod.mk.injEq] at hok
    rw [← hok.1]
    exact h

lemma GuardInv_unlock_user (cfg : Config) (s : State) (v : UMTXv)
    (s' : State) (v' : UMTXv) (h : GuardInv cfg s)
    (hok : umtx_unlock_user cfg s v = Except.ok (s', v')) :
    GuardInv cfg s' := by
  unfold umtx_unlock_user at hok
  split at hok
  · split at hok
    · exact Except.noConfusion hok
    · simp only [Except.ok.injEq, Prod.mk.injEq] at hok
      rw [← hok.1]
      exact h
  · simp only [Except.ok.injEq, Prod.mk.injEq] at hok
    rw [← hok.1]
    exact h

lemma GuardInv_cleanup (cfg : Config) (s : State) (h : GuardInv cfg s) :
    GuardInv cfg (umtx_cleanup cfg s).1 := by
  have hd := GuardInv_destroy_global cfg s h
  exact ⟨hd.1, hd.2⟩

lemma Reachable_GuardInv (cfg : Config) (s : State) (h : Reachable cfg s) :
    GuardInv cfg s := by
  induction h with
  | base => exact ⟨rfl, fun _ => rfl⟩
  | initGlobal env s hs ih => exact GuardInv_init_global cfg env s ih
  | initUser env s v1 v2 s' v' hs hok ih =>
      exact GuardInv_init_user_i cfg env s v1 v2 s' v' ih hok
  | lockGlobal env s s' hs hok ih =>
      exact GuardInv_lock_global cfg env s s' ih hok
  | unlockGlobal s s' hs hok ih =>
      exact GuardInv_unlock_global cfg s s' ih hok
  | lockUser env s v s' v' hs hok ih =>
      exact GuardInv_lock_user cfg env s v s' v' ih hok
  | unlockUser s v s' v' hs hok ih =>
      exact GuardInv_unlock_user cfg s v s' v' ih hok
  | destroyGlobal s hs ih => exact GuardInv_destroy_global cfg s ih
  | destroyUser s v hs ih => exact GuardInv_destroy_user cfg s v ih
  | setMutexFns env s c i d l u st hs ih =>
      exact GuardInv_setMutexFunctions env cfg s c i d l u st ih
  | setAtomicFns env s c ip dp st hs ih =>
      exact GuardInv_setAtomicFunctions env cfg s c ip dp st ih
  | cleanupStep s hs ih => exact GuardInv_cleanup cfg s ih

/-- Claim C3 (amended): after `umtx_cleanup`, started from any reachable
state in which the global handle is live or the guard handle is already
uninitialized, both handles are uninitialized and all callback slots and
both contexts are unregistered. -/
theorem umtx_cleanup_resets (cfg : Config) (s : State) (h : Reachable cfg s)
    (hok : s.globalMutex ≠ none ∨ s.incDecMutex = none) :
    (umtx_cleanup cfg s).1.globalMutex = none ∧
    (umtx_cleanup cfg s).1.incDecMutex = none ∧
    (umtx_cleanup cfg s).1.mutexInitFn = none ∧
    (umtx_cleanup cfg s).1.mutexDestroyFn = none ∧
    (umtx_cleanup cfg s).1.mutexLockFn = none ∧
    (umtx_cleanup cfg s).1.mutexUnlockFn = none ∧
    (umtx_cleanup cfg s).1.mutexContext = none ∧
    (umtx_cleanup cfg s).1.incFn = none ∧
    (umtx_cleanup cfg s).1.decFn = none ∧
    (umtx_cleanup cfg s).1.incDecContext = none := by
  have hinv := Reachable_GuardInv cfg s h
  have hd := GuardInv_destroy_global cfg s hinv
  refine ⟨umtx_destroy_global_globalMutex cfg s, ?_, rfl, rfl, rfl, rfl,
    rfl, rfl, rfl, hd.1⟩
  show (umtx_destroy_global cfg s).incDecMutex = none
  rcases hok with hg | hm
  · unfold umtx_destroy_global
    rw [if_neg hg]
    split
    · exact umtx_destroy_incdec_incDecMutex cfg _
    · rename_i hnp
      obtain ⟨a, ha⟩ := destroyVal_eq cfg s s.globalMutex
      dsimp only
      rw [ha]
      exact hinv.2 hnp
  · unfold umtx_destroy_global
    split
    · exact hm
    · split
      · exact umtx_destroy_incdec_incDecMutex cfg _
      · obtain ⟨a, ha⟩ := destroyVal_eq cfg s s.globalMutex
        dsimp only
        rw [ha]
        exact hm

theorem umtx_cleanup_resets_witness :
    (umtx_cleanup cfgP initState).1.globalMutex = none ∧
    (umtx_cleanup cfgP initState).1.incDecMutex = none ∧
    (umtx_cleanup cfgP initState).1.mutexInitFn = none ∧
    (umtx_cleanup cfgP initState).1.mutexDestroyFn = none ∧
    (umtx_cleanup cfgP initState).1.mutexLockFn = none ∧
    (umtx_cleanup cfgP initState).1.mutexUnlockFn = none ∧
    (umtx_cleanup cfgP initState).1.mutexContext = none ∧
    (umtx_cleanup cfgP initState).1.incFn = none ∧
    (umtx_cleanup cfgP initState).1.decFn = none ∧
    (umtx_cleanup cfgP initState).1.incDecContext = none :=
  umtx_cleanup_resets cfgP initState Reachable.base (Or.inr rfl)

/-- Claim C3 counterexample: on POSIX, if the global mutex allocation
fails but the guard-mutex allocation succeeds during initialization, the
guard handle is live while the global handle is NULL; `umtx_cleanup`
then returns early from `umtx_destroy(NULL)` without cascading, leaving
the guard handle still initialized — contradicting the claim that after
cleanup the auxiliary guard handle is uninitialized. -/
theorem umtx_cleanup_guard_leak_cex :
    (umtx_cleanup cfgP
        (umtx_init_global cfgP envAllocFailFirst initState)).1.incDecMutex
      = some (MVal.obj 0) := by
  rfl

end Umutex
